import Mathlib

/- Verification of RNN_Experiments graph construction, early stopping and
generation/sampling utilities, shallowly embedded from:
  src/build_model.py
  src/rnn/build_model/build_model_utils.py
  src/rnn/extensions.py
Real-valued tensor cells are modelled as rationals; symbolic tensors over
(time, batch, feature) indices become plain functions of those indices. -/

set_option maxRecDepth 8000

/-! ## get_prernn (build_model_utils.py lines 20-89), continuous-input branch -/

/-- Lines 60-64 of build_model_utils.py: when args.used_inputs is configured,
x = set_subtensor(x[used_inputs:, :, :], zeros_like(...)), so every timestep t
with used_inputs ≤ t is zeroed and earlier timesteps keep their value. -/
def prernn_used_inputs (used_inputs : Option Nat) (x : Nat → Nat → Nat → ℚ) :
    Nat → Nat → Nat → ℚ :=
  fun t b f =>
    match used_inputs with
    | none => x t b f
    | some u => if u ≤ t then 0 else x t b f

/-- tensor.ones_like of a (time, batch) mask. -/
def ones_mask : Nat → Nat → ℚ := fun _ _ => 1

/-- set_subtensor(m[:k, :], zeros_like(...)): zero the first k timesteps. -/
def zero_first_rows (k : Nat) (m : Nat → Nat → ℚ) : Nat → Nat → ℚ :=
  fun t b => if t < k then 0 else m t b

/-- get_costs (build_model_utils.py lines 170-181), continuous branch: y_mask is
all ones, then zeroed on [:context], then additionally zeroed on [:used_inputs]
when a used-inputs horizon is configured. -/
def cont_y_mask (context : Nat) (used_inputs : Option Nat) : Nat → Nat → ℚ :=
  match used_inputs with
  | none => zero_first_rows context ones_mask
  | some u => zero_first_rows u (zero_first_rows context ones_mask)

/-! ## get_presoft (build_model_utils.py lines 92-109) and the output layer of
  the standalone build_model (src/build_model.py lines 66-68) -/

/-- Python booleans used as 0/1 integers in dimension arithmetic. -/
def boolToNat (b : Bool) : Nat := if b then 1 else 0

/-- Line 96: use_all_states = skip_connections or skip_output or
rnn_type in ["clockwork", "soft"]. -/
def use_all_states (rnn_type : String) (skip_connections skip_output : Bool) :
    Bool :=
  skip_connections || skip_output || (rnn_type == "clockwork" || rnn_type == "soft")

/-- Lines 97-100: input_dim of the output layer in get_presoft,
use_all_states * layers * state_dim + (1 - use_all_states) * state_dim. -/
def get_presoft_input_dim (rnn_type : String) (layers state_dim : Nat)
    (skip_connections skip_output : Bool) : Nat :=
  boolToNat (use_all_states rnn_type skip_connections skip_output) * layers *
      state_dim +
    (1 - boolToNat (use_all_states rnn_type skip_connections skip_output)) *
      state_dim

/-- src/build_model.py lines 66-68: output_layer = Linear(input_dim=layers *
state_dim, output_dim=vocab_size); the skip_connections flag does not enter
this computation. -/
def build_model_output_layer_input_dim (layers state_dim : Nat) : Nat :=
  layers * state_dim

/-! ## get_costs renormalization (build_model_utils.py lines 161-167, 193-197) -/

/-- tensor.sum(tensor.ones_like(y_mask)): the total number of mask cells. -/
def mask_total_cells (mask : List (List ℚ)) : ℚ :=
  ((mask.map List.length).sum : ℕ)

/-- tensor.sum(y_mask): the sum of all mask entries. -/
def mask_sum (mask : List (List ℚ)) : ℚ :=
  (mask.map List.sum).sum

/-- Lines 162-164, categorical branch: the factor multiplying the raw
cross entropy, sum(ones_like(y_mask)) / sum(y_mask). -/
def cat_renorm_factor (mask : List (List ℚ)) : ℚ :=
  mask_total_cells mask / mask_sum mask

/-- Lines 194-196, continuous branch: the factor multiplying the squared
error, sum(ones_like(y_mask)) / sum(y_mask). -/
def cont_renorm_factor (mask : List (List ℚ)) : ℚ :=
  mask_total_cells mask / mask_sum mask

/-! ## get_costs final cost (build_model_utils.py lines 199-204; the same
  two lines appear in src/build_model.py lines 115-119) -/

/-- cost = unregularized_cost + tensor.log(1), named "regularized_cost".
The backend log function is abstract here; the code applies it only to the
constant 1. -/
def regularized_cost (log : ℚ → ℚ) (unregularized_cost : ℚ) : ℚ :=
  unregularized_cost + log 1

/-! ## EarlyStopping (extensions.py lines 28-108) -/

/-- EarlyStopping internal state: the patience counter (self.counter, line 69)
and the best value so far (main_loop.status["best_" + record_name], absent
before the first improvement). -/
structure ESState where
  counter : Nat
  best : Option ℚ
  deriving Repr, DecidableEq

/-- What one EarlyStopping.do trigger writes into log.current_row.
patience = none models "the 'patience' key was not written"; newBest models the
notification_name entry; finishRequested models 'training_finish_requested'
(false = not written). -/
structure ESRow where
  patience : Option Nat
  newBest : Bool
  finishRequested : Bool
  deriving Repr, DecidableEq

/-- EarlyStopping.do (extensions.py lines 90-108), one trigger.
current = none models the record_name being absent from the current log row:
the counter increments and the method returns at once (line 94), writing
nothing. Otherwise the value improves iff best is unset, or current differs
from best and choose_best(current, best) == current; on improvement best is
replaced, the counter resets and the notification is logged (the _dump call is
modelled separately by EarlyStopping_dump); otherwise the counter increments.
Then 'training_finish_requested' is set iff patience ≤ counter (line 106) and
the counter is written under 'patience' (line 108). -/
def EarlyStopping_do (choose_best : ℚ → ℚ → ℚ) (patience : Nat) (st : ESState)
    (current : Option ℚ) : ESState × ESRow :=
  match current with
  | none =>
    ({ counter := st.counter + 1, best := st.best },
     { patience := none, newBest := false, finishRequested := false })
  | some cv =>
    let improved : Bool :=
      match st.best with
      | none => true
      | some bv => decide (cv ≠ bv) && decide (choose_best cv bv = cv)
    let st1 : ESState :=
      if improved then { counter := 0, best := some cv }
      else { counter := st.counter + 1, best := st.best }
    (st1,
     { patience := some st1.counter, newBest := improved,
       finishRequested := decide (patience ≤ st1.counter) })

/-- Iterated EarlyStopping.do triggers over a sequence of monitored values,
collecting the rows written at each trigger. -/
def EarlyStopping_run (choose_best : ℚ → ℚ → ℚ) (patience : Nat)
    (st : ESState) : List (Option ℚ) → ESState × List ESRow
  | [] => (st, [])
  | v :: vs =>
    let p := EarlyStopping_do choose_best patience st v
    let q := EarlyStopping_run choose_best patience p.1 vs
    (q.1, p.2 :: q.2)

/-- EarlyStopping._dump (extensions.py lines 75-88). The try block records
log.current_row['saved_best_to'] = path + '/best', writes the textual log,
then secure_dumps the parameters; on any exception the marker is reset to None
and the exception re-raised. write_log and dump_params model the two fallible
persistence steps in program order. Returns (final value of the
'saved_best_to' entry, the re-raised exception if any). -/
def EarlyStopping_dump (path : String) (write_log : Except String Unit)
    (dump_params : Except String Unit) : Option String × Option String :=
  match write_log with
  | .error e => (none, some e)
  | .ok _ =>
    match dump_params with
    | .error e => (none, some e)
    | .ok _ => (some (path ++ "/best"), none)

/-! ## sample and the generation loop (extensions.py lines 179-219, 290-295) -/

/-- The numpy exceptions that the embedded operations can raise. -/
inductive NpError where
  | assertionError
  | indexError
  | valueError
  deriving Repr, DecidableEq

/-- Helper of np_argmax: first index attaining the maximum, scanning with the
current best value, its index, and the index of the next element. -/
def np_argmax_go (best : ℚ) (bestIdx i : Nat) : List ℚ → Nat
  | [] => bestIdx
  | x :: xs =>
    if best < x then np_argmax_go x i (i + 1) xs
    else np_argmax_go best bestIdx (i + 1) xs

/-- np.argmax of a 1-D array: index of the first maximal entry; numpy raises
ValueError ("attempt to get argmax of an empty sequence") on an empty array. -/
def np_argmax : List ℚ → Except NpError Nat
  | [] => .error .valueError
  | x :: xs => .ok (np_argmax_go x 0 1 xs)

/-- Helper of np_accumulate carrying the running sum. -/
def np_accumulate_go (acc : ℚ) : List ℚ → List ℚ
  | [] => []
  | x :: xs => (acc + x) :: np_accumulate_go (acc + x) xs

/-- np.add.accumulate: running sums of a 1-D array. -/
def np_accumulate (xs : List ℚ) : List ℚ := np_accumulate_go 0 xs

/-- np.digitize(x, bins) for monotonically increasing bins (default
right=False): the number of bins that are ≤ x; 0 for empty bins. -/
def np_digitize (x : ℚ) (bins : List ℚ) : Nat :=
  bins.countP (fun b => decide (b ≤ x))

/-- sample (extensions.py lines 290-295). probs is a 2-D array given as a list
of rows; the assert on line 291 requires exactly one row and precedes both
branches. rand models the random_sample(1) draw, read only in the proportional
branch. Arg-max mode returns np.argmax(probs, axis=1), one index per row;
proportional mode digitizes the draw into the cumulative sums of row 0. -/
def sample (probs : List (List ℚ)) (argmax : Bool) (rand : ℚ) :
    Except NpError (List Nat) :=
  if probs.length = 1 then
    if argmax then probs.mapM np_argmax
    else .ok [np_digitize rand (np_accumulate probs.headI)]
  else .error .assertionError

/-- Indexing a 1-D numpy array with [:, None, :] (extensions.py line 213): the
selection tuple holds two slice indices against a single axis, so numpy raises
IndexError ("too many indices for array") for every 1-D input; no value is
ever produced, hence the Empty success type. -/
def index_colon_none_colon_1d (_a : List Nat) : Except NpError Empty :=
  .error .indexError

/-- The generation loop of TextGenerationExtension.do (extensions.py lines
199-219), categorical branch. The compiled self.generate function composed
with the softmax of the last timestep is abstracted as model: from the carried
hidden state and the text so far it yields the probability row and the updated
state. rands i models the random_sample(1) draw of iteration i, read only in
proportional mode. Each iteration samples an index array and then evaluates
sample(...)[:, None, :] (line 213) before appending to the text; the success
value of that indexing is uninhabited, so the loop can only return the text
unchanged (when the iteration count is 0) or propagate an exception. -/
def textgen_loop {σ : Type} (model : σ → List Nat → List ℚ × σ) (argmax : Bool)
    (rands : Nat → ℚ) : Nat → Nat → σ → List Nat → Except NpError (List Nat)
  | 0, _, _, text => .ok text
  | _ + 1, i, st, text =>
    match sample [(model st text).1] argmax (rands i) with
    | .error e => .error e
    | .ok s =>
      match index_colon_none_colon_1d s with
      | .error e => .error e
      | .ok x => nomatch x

/-! ## interactive_generate prefix mapping (extensions.py lines 246-252) -/

/-- Helper of np_where_eq carrying the current index. -/
def np_where_eq_go (c : Char) (i : Nat) : List Char → List Nat
  | [] => []
  | v :: vs =>
    if v = c then i :: np_where_eq_go c (i + 1) vs
    else np_where_eq_go c (i + 1) vs

/-- np.where(vocab == char)[0] (extensions.py line 250): the indices at which
the vocabulary array equals the character. Total: an unknown character yields
the empty index list, no exception is raised. -/
def np_where_eq (vocab : List Char) (c : Char) : List Nat :=
  np_where_eq_go c 0 vocab

/-- interactive_generate lines 248-251: for each character of the initial
text, append np.where(vocab == char)[0] to initial_code. -/
def interactive_initial_code (vocab : List Char) (initial_text : List Char) :
    List (List Nat) :=
  initial_text.map (np_where_eq vocab)

/-! ## Claim C1 -/

/-- C1 counterexample: with context = 0 and used_inputs = 1 the raw input is
zeroed at timestep 1 (at and beyond the horizon) as the claim says, but the
target mask at timestep 1 is 1, not 0, and at timestep 0 (before the horizon)
the mask was zeroed rather than left unchanged: get_costs zeroes the target
mask at the timesteps below the horizon, not at those at or beyond it. -/
theorem C1_counterexample :
    prernn_used_inputs (some 1) (fun _ _ _ => 5) 1 0 0 = 0 ∧
    cont_y_mask 0 (some 1) 1 0 = 1 ∧
    cont_y_mask 0 (some 1) 0 0 = 0 :=
  ⟨rfl, rfl, rfl⟩

/-- C1 (amended): with a configured used-inputs horizon, graph construction
zeroes the raw input features at every timestep at or beyond the horizon and
leaves earlier input timesteps unchanged, while the target mask is zeroed at
every timestep before the horizon (in addition to the first context timesteps)
and is one at timesteps at or beyond both the horizon and the context. -/
theorem C1_used_inputs_zeroing (u t b f context : Nat)
    (x : Nat → Nat → Nat → ℚ) :
    (u ≤ t → prernn_used_inputs (some u) x t b f = 0) ∧
    (t < u → prernn_used_inputs (some u) x t b f = x t b f) ∧
    (t < u → cont_y_mask context (some u) t b = 0) ∧
    (u ≤ t → context ≤ t → cont_y_mask context (some u) t b = 1) := by
  refine ⟨?_, ?_, ?_, ?_⟩
  · intro h
    simp [prernn_used_inputs, h]
  · intro h
    have h' : ¬ u ≤ t := by omega
    simp [prernn_used_inputs, h']
  · intro h
    simp [cont_y_mask, zero_first_rows, h]
  · intro h1 h2
    have h1' : ¬ t < u := by omega
    have h2' : ¬ t < context := by omega
    simp [cont_y_mask, zero_first_rows, ones_mask, h1', h2']

/-- Witness for C1_used_inputs_zeroing at u = 2, context = 1, x ≡ 5. -/
theorem C1_witness :
    prernn_used_inputs (some 2) (fun _ _ _ => 5) 3 0 0 = 0 ∧
    prernn_used_inputs (some 2) (fun _ _ _ => 5) 1 0 0 = 5 ∧
    cont_y_mask 1 (some 2) 1 0 = 0 ∧
    cont_y_mask 1 (some 2) 3 0 = 1 :=
  ⟨(C1_used_inputs_zeroing 2 3 0 0 1 (fun _ _ _ => 5)).1 (by norm_num),
   (C1_used_inputs_zeroing 2 1 0 0 1 (fun _ _ _ => 5)).2.1 (by norm_num),
   (C1_used_inputs_zeroing 2 1 0 0 1 (fun _ _ _ => 5)).2.2.1 (by norm_num),
   (C1_used_inputs_zeroing 2 3 0 0 1 (fun _ _ _ => 5)).2.2.2 (by norm_num)
     (by norm_num)⟩

/-! ## Claim C4 -/

/-- C4 counterexample: in the standalone src/build_model.py, for layers = 2 and
state_dim = 32 the output layer is built with input_dim = layers * state_dim =
64, and the skip_connections flag does not enter that computation at all; so
with skip_connections = False the input_dim there is 64, not 32 as the claim
states. -/
theorem C4_counterexample :
    build_model_output_layer_input_dim 2 32 = 64 ∧
    build_model_output_layer_input_dim 2 32 ≠ 32 := by
  constructor <;> decide

/-- C4 (amended): for vocab_size = 50, state_dim = 32, layers = 2, rnn_type =
"lstm" (and skip_output = False), the output layer built by get_presoft in
build_model_utils.py has input_dim 32 when skip_connections = False and 64
when skip_connections = True; the separate output layer of src/build_model.py
has input_dim = layers * state_dim = 64 regardless of skip_connections. -/
theorem C4_output_layer_input_dim :
    get_presoft_input_dim ("lstm") 2 32 false false = 32 ∧
    get_presoft_input_dim ("lstm") 2 32 true false = 64 ∧
    build_model_output_layer_input_dim 2 32 = 64 := by
  refine ⟨?_, ?_, ?_⟩ <;> rfl

/-! ## Claim C7 -/

/-- C7: if either persistence step of EarlyStopping._dump fails (writing the
textual log, or secure_dump of the parameters), the 'saved_best_to' entry of
the current log row ends as None and the exception is re-raised to the caller;
it is never swallowed. -/
theorem C7_dump_failure (path : String)
    (write_log dump_params : Except String Unit) (e : String)
    (h : write_log = .error e ∨
      (write_log = .ok () ∧ dump_params = .error e)) :
    EarlyStopping_dump path write_log dump_params = (none, some e) := by
  rcases h with h | ⟨h1, h2⟩
  · rw [h]
    rfl
  · rw [h1, h2]
    rfl

/-- Witness for C7_dump_failure: the parameter dump fails after the log write
succeeded. -/
theorem C7_witness :
    EarlyStopping_dump ("model_dir") (.ok ()) (.error ("disk full")) =
      (none, some ("disk full")) :=
  C7_dump_failure ("model_dir") (.ok ()) (.error ("disk full")) ("disk full")
    (Or.inr ⟨rfl, rfl⟩)

/-! ## Claim C9 -/

/-- C9: for every backend log with log 1 = 0 (true of the real logarithm that
tensor.log computes, even in floating point), the returned training loss
"regularized_cost" is numerically equal to the unregularized monitoring metric
it is built from; the added log(1) is an additive zero. -/
theorem C9_additive_zero (log : ℚ → ℚ) (h : log 1 = 0)
    (unregularized : ℚ) :
    regularized_cost log unregularized = unregularized := by
  simp [regularized_cost, h]

/-- Witness for C9_additive_zero with a concrete log having log 1 = 0. -/
theorem C9_witness : regularized_cost (fun x => x - 1) 7 = 7 :=
  C9_additive_zero (fun x => x - 1) (by norm_num) 7

/-! ## Claim C2 -/

/-- C2 counterexample: a trigger with the monitored metric absent from the
current row (current = none) increments the counter to the patience threshold
1, yet writes nothing under 'patience' and does not flag a termination
request: the early return on line 94 of extensions.py skips both the
counter-threshold check and the 'patience' log write. -/
theorem C2_counterexample :
    (EarlyStopping_do (fun a b => min a b) 1 { counter := 0, best := none }
        none).2.patience = none ∧
    (EarlyStopping_do (fun a b => min a b) 1 { counter := 0, best := none }
        none).1.counter = 1 ∧
    (EarlyStopping_do (fun a b => min a b) 1 { counter := 0, best := none }
        none).2.finishRequested = false :=
  ⟨rfl, rfl, rfl⟩

/-- C2 (amended): on every invocation where the monitored metric is present in
the current log row, the updated counter value is recorded under 'patience'
and a termination request is flagged exactly when the counter has reached the
configured patience threshold; on invocations where the metric is absent, the
counter increments but nothing is recorded in the log and no termination
request is flagged. -/
theorem C2_patience_logging (choose_best : ℚ → ℚ → ℚ) (patience : Nat)
    (st : ESState) (cv : ℚ) :
    (EarlyStopping_do choose_best patience st (some cv)).2.patience =
      some (EarlyStopping_do choose_best patience st (some cv)).1.counter ∧
    ((EarlyStopping_do choose_best patience st (some cv)).2.finishRequested =
        true ↔
      patience ≤ (EarlyStopping_do choose_best patience st (some cv)).1.counter) ∧
    (EarlyStopping_do choose_best patience st none).2 =
      { patience := none, newBest := false, finishRequested := false } ∧
    (EarlyStopping_do choose_best patience st none).1 =
      { counter := st.counter + 1, best := st.best } := by
  refine ⟨rfl, ?_, rfl, rfl⟩
  simp [EarlyStopping_do]

/-! ## Claim C3 -/

/-- C3: the character-to-index mapping of interactive_generate is built from
np.where(vocab == char)[0], which is total: a character absent from the
vocabulary silently yields the empty index list and the mapping loop completes
without surfacing any lookup failure, while known characters map to their
index. Here vocab = ['a', 'b']: the unknown character of "z" and of "bza"
produces [] instead of an error. -/
theorem C3_unknown_char_lookup :
    interactive_initial_code ['a', 'b'] ['z'] = [[]] ∧
    interactive_initial_code ['a', 'b'] ['b', 'z', 'a'] = [[1], [], [0]] := by
  constructor <;> rfl

/-! ## Claim C10 -/

/-- mapM of np_argmax over a single row, computed. -/
lemma mapM_np_argmax_singleton (row : List ℚ) :
    List.mapM np_argmax [row] = Except.map (fun i => [i]) (np_argmax row) := by
  cases row with
  | nil => rfl
  | cons x xs => rfl

/-- The same computation in the unfolded List.mapM.loop form that simp
produces. -/
lemma mapM_loop_np_argmax_singleton (row : List ℚ) :
    List.mapM.loop np_argmax [row] [] =
      Except.map (fun i => [i]) (np_argmax row) := by
  cases row with
  | nil => rfl
  | cons x xs => rfl

/-- C10 counterexample: probs = [[]] (numpy shape (1, 0)) satisfies the
single-row precondition, yet in arg-max mode no sampled index is returned:
np.argmax over the empty row raises ValueError, so the claim's "under the
single-row precondition ... a single sampled index is returned" fails. -/
theorem C10_counterexample :
    sample [([] : List ℚ)] true 0 = .error .valueError :=
  rfl

/-- C10 (amended): the sampling helper asserts that its probability input has
exactly one row: for every input whose first dimension differs from 1 the
assertion fails in both arg-max and proportional modes (the assert precedes
the arg-max branch); under the single-row precondition the assertion never
fires, and a single sampled index is returned whenever the row is nonempty in
arg-max mode (an empty row instead raises ValueError) and unconditionally in
proportional mode. -/
theorem C10_sample_assert (probs : List (List ℚ)) (am : Bool) (r : ℚ) :
    (probs.length ≠ 1 → sample probs am r = .error .assertionError) ∧
    (probs.length = 1 → sample probs am r ≠ .error .assertionError) ∧
    (∀ row, probs = [row] → row ≠ [] →
      ∃ i, sample probs am r = .ok [i]) ∧
    (probs.length = 1 → am = false → ∃ i, sample probs am r = .ok [i]) := by
  refine ⟨?_, ?_, ?_, ?_⟩
  · intro h
    simp [sample, h]
  · intro h
    rcases List.length_eq_one.mp h with ⟨row, rfl⟩
    cases am with
    | false => simp [sample]
    | true =>
      cases row with
      | nil =>
        simp [sample, mapM_loop_np_argmax_singleton, np_argmax, Except.map]
      | cons x xs =>
        simp [sample, mapM_loop_np_argmax_singleton, np_argmax, Except.map]
  · intro row hp hrow
    subst hp
    cases am with
    | false => exact ⟨np_digitize r (np_accumulate row), by simp [sample]⟩
    | true =>
      cases row with
      | nil => exact absurd rfl hrow
      | cons x xs =>
        exact ⟨np_argmax_go x 0 1 xs,
          by simp [sample, mapM_loop_np_argmax_singleton, np_argmax, Except.map]⟩
  · intro h ham
    subst ham
    rcases List.length_eq_one.mp h with ⟨row, rfl⟩
    exact ⟨np_digitize r (np_accumulate row), by simp [sample]⟩

/-- Witness for C10_sample_assert: a two-row input fails the assertion in
arg-max mode, and a single nonempty row yields exactly one index in both
modes. -/
theorem C10_witness :
    sample [[(1:ℚ), 2], [3, 4]] true 0 = .error .assertionError ∧
    (∃ i, sample [[(1:ℚ), 2]] true 0 = .ok [i]) ∧
    (∃ i, sample [[(1:ℚ), 2]] false (1/2) = .ok [i]) :=
  ⟨(C10_sample_assert [[(1:ℚ), 2], [3, 4]] true 0).1 (by decide),
   (C10_sample_assert [[(1:ℚ), 2]] true 0).2.2.1 [(1:ℚ), 2] rfl (by decide),
   (C10_sample_assert [[(1:ℚ), 2]] false (1/2)).2.2.2 rfl rfl⟩

/-! ## Claim C6 -/

/-- In arg-max mode the sampling helper never reads the random draw. -/
lemma sample_argmax_rand_free (probs : List (List ℚ)) (r1 r2 : ℚ) :
    sample probs true r1 = sample probs true r2 := by
  simp [sample]

/-- C6: with arg-max sampling the generation loop is independent of the random
stream (two runs from the same prefix, initial hidden state and model follow
identical branches), but for every positive generation length the loop never
returns an output sequence at all: the first iteration evaluates
sample(...)[:, None, :] on the 1-D sampled index array, which raises
IndexError, so the claimed output sequence of the configured generation length
is never produced. -/
theorem C6_generation_crash {σ : Type} (model : σ → List Nat → List ℚ × σ)
    (rands1 rands2 : Nat → ℚ) (n : Nat) (s0 : σ) (init : List Nat)
    (hn : 1 ≤ n) :
    textgen_loop model true rands1 n 0 s0 init =
      textgen_loop model true rands2 n 0 s0 init ∧
    ∀ out, textgen_loop model true rands1 n 0 s0 init ≠ .ok out := by
  cases n with
  | zero => omega
  | succ m =>
    constructor
    · simp only [textgen_loop]
      rw [sample_argmax_rand_free [(model s0 init).1] (rands1 0) (rands2 0)]
    · intro out
      simp only [textgen_loop]
      cases h : sample [(model s0 init).1] true (rands1 0) with
      | error e => simp
      | ok s => simp [index_colon_none_colon_1d]

/-- Witness for C6_generation_crash: a concrete stateless model with a two-way
vocabulary, generation length 1, prefix [0], and two distinct random streams. -/
theorem C6_witness :
    (textgen_loop (fun u _ => ([(1:ℚ), 2], u)) true (fun _ => 0) 1 0 () [0] =
      textgen_loop (fun u _ => ([(1:ℚ), 2], u)) true (fun _ => 1/3) 1 0 () [0]) ∧
    textgen_loop (fun u _ => ([(1:ℚ), 2], u)) true (fun _ => 0) 1 0 () [0] ≠
      .ok [0] :=
  ⟨(C6_generation_crash (fun u _ => ([(1:ℚ), 2], u)) (fun _ => 0)
      (fun _ => 1/3) 1 () [0] (by norm_num)).1,
   (C6_generation_crash (fun u _ => ([(1:ℚ), 2], u)) (fun _ => 0)
      (fun _ => 1/3) 1 () [0] (by norm_num)).2 [0]⟩

/-! ## Claim C8 -/

/-- Total cell count of a mask, cons form. -/
lemma mask_total_cells_cons (r : List ℚ) (m : List (List ℚ)) :
    mask_total_cells (r :: m) = (r.length : ℚ) + mask_total_cells m := by
  simp [mask_total_cells]

/-- Entry sum of a mask, cons form. -/
lemma mask_sum_cons (r : List ℚ) (m : List (List ℚ)) :
    mask_sum (r :: m) = r.sum + mask_sum m := by
  simp [mask_sum]

/-- A nonempty all-ones row differs from the all-zeros row. -/
lemma replicate_one_ne_zero (b : Nat) (hb : 0 < b) :
    List.replicate b (1:ℚ) ≠ List.replicate b 0 := by
  intro h
  have h1 : (1:ℚ) ∈ List.replicate b (1:ℚ) :=
    List.mem_replicate.mpr ⟨by omega, rfl⟩
  rw [h] at h1
  have h2 := List.eq_of_mem_replicate h1
  norm_num at h2

/-- For a mask whose rows are each all ones or all zeros (row width b), the
total cell count is rows * b and the entry sum is (rows - zero rows) * b. -/
lemma mask_counts (b : Nat) :
    ∀ mask : List (List ℚ),
      (∀ r ∈ mask, r = List.replicate b (1:ℚ) ∨ r = List.replicate b 0) →
      0 < b →
      mask_total_cells mask = (mask.length : ℚ) * b ∧
      mask_sum mask =
        ((mask.length : ℚ) -
          (mask.countP (fun r => decide (r = List.replicate b (0:ℚ))) : ℚ)) *
          b := by
  intro mask
  induction mask with
  | nil =>
    intro _ _
    constructor <;> simp [mask_total_cells, mask_sum]
  | cons r m ih =>
    intro hrow hb
    obtain ⟨ht, hs⟩ := ih (fun s hs => hrow s (List.mem_cons_of_mem _ hs)) hb
    rcases hrow r (List.mem_cons_self r m) with h1 | h0
    · subst h1
      have hne : ¬ (List.replicate b (1:ℚ) = List.replicate b 0) :=
        replicate_one_ne_zero b hb
      constructor
      · rw [mask_total_cells_cons, ht]
        simp only [List.length_replicate, List.length_cons]
        push_cast
        ring
      · rw [mask_sum_cons, hs]
        simp only [List.sum_replicate, List.countP_cons, List.length_cons,
          hne, decide_eq_true_eq, if_false]
        push_cast
        simp [nsmul_eq_mul]
        try ring
    · subst h0
      constructor
      · rw [mask_total_cells_cons, ht]
        simp only [List.length_replicate, List.length_cons]
        push_cast
        ring
      · rw [mask_sum_cons, hs]
        simp only [List.sum_replicate, List.countP_cons, List.length_cons,
          decide_eq_true_eq, if_pos rfl]
        push_cast
        simp [nsmul_eq_mul]
        try ring

/-- C8: the loss renormalization factor, sum(ones_like(mask)) / sum(mask),
equals n/(n−k) for a mask in which k of the n rows are zeroed out (and the
remaining rows are all ones, each row holding b > 0 cells), in both the
categorical and the continuous cost branch; when no row is zeroed (a mask of
all ones) the factor equals 1. -/
theorem C8_renormalization (b : Nat) (mask : List (List ℚ)) (hb : 0 < b)
    (hrow : ∀ r ∈ mask, r = List.replicate b (1:ℚ) ∨ r = List.replicate b 0)
    (hk : mask.countP (fun r => decide (r = List.replicate b (0:ℚ))) <
      mask.length) :
    cat_renorm_factor mask =
      (mask.length : ℚ) /
        ((mask.length : ℚ) -
          (mask.countP (fun r => decide (r = List.replicate b (0:ℚ))) : ℚ)) ∧
    cont_renorm_factor mask =
      (mask.length : ℚ) /
        ((mask.length : ℚ) -
          (mask.countP (fun r => decide (r = List.replicate b (0:ℚ))) : ℚ)) ∧
    (mask.countP (fun r => decide (r = List.replicate b (0:ℚ))) = 0 →
      cat_renorm_factor mask = 1 ∧ cont_renorm_factor mask = 1) := by
  obtain ⟨ht, hs⟩ := mask_counts b mask hrow hb
  have hbq : (b : ℚ) ≠ 0 := Nat.cast_ne_zero.mpr (by omega)
  have hfac : mask_total_cells mask / mask_sum mask =
      (mask.length : ℚ) /
        ((mask.length : ℚ) -
          (mask.countP (fun r => decide (r = List.replicate b (0:ℚ))) : ℚ)) := by
    rw [ht, hs]
    rcases eq_or_ne
        ((mask.length : ℚ) -
          (mask.countP (fun r => decide (r = List.replicate b (0:ℚ))) : ℚ)) 0
      with h | h
    · rw [h]
      simp
    · field_simp
      ring
  refine ⟨hfac, hfac, fun h0 => ?_⟩
  have hn : (mask.length : ℚ) ≠ 0 := by
    refine Nat.cast_ne_zero.mpr ?_
    omega
  have h2 := hfac
  rw [h0] at h2
  simp only [Nat.cast_zero, sub_zero] at h2
  rw [div_self hn] at h2
  exact ⟨h2, h2⟩

/-- Witness for C8_renormalization: a width-2 mask with one of three rows
zeroed (factor 3/2 in the stated n/(n−k) form), and an all-ones mask of two
rows (factor 1). -/
theorem C8_witness :
    cat_renorm_factor [[(1:ℚ), 1], [0, 0], [1, 1]] =
      (([[(1:ℚ), 1], [0, 0], [1, 1]] : List (List ℚ)).length : ℚ) /
        ((([[(1:ℚ), 1], [0, 0], [1, 1]] : List (List ℚ)).length : ℚ) -
          (([[(1:ℚ), 1], [0, 0], [1, 1]] : List (List ℚ)).countP
              (fun r => decide (r = List.replicate 2 (0:ℚ))) : ℚ)) ∧
    cont_renorm_factor [[(1:ℚ), 1], [0, 0], [1, 1]] =
      (([[(1:ℚ), 1], [0, 0], [1, 1]] : List (List ℚ)).length : ℚ) /
        ((([[(1:ℚ), 1], [0, 0], [1, 1]] : List (List ℚ)).length : ℚ) -
          (([[(1:ℚ), 1], [0, 0], [1, 1]] : List (List ℚ)).countP
              (fun r => decide (r = List.replicate 2 (0:ℚ))) : ℚ)) ∧
    (cat_renorm_factor [[(1:ℚ), 1], [1, 1]] = 1 ∧
     cont_renorm_factor [[(1:ℚ), 1], [1, 1]] = 1) :=
  ⟨(C8_renormalization 2 [[(1:ℚ), 1], [0, 0], [1, 1]] (by norm_num) (by decide)
      (by decide)).1,
   (C8_renormalization 2 [[(1:ℚ), 1], [0, 0], [1, 1]] (by norm_num) (by decide)
      (by decide)).2.1,
   (C8_renormalization 2 [[(1:ℚ), 1], [1, 1]] (by norm_num) (by decide)
      (by decide)).2.2 (by decide)⟩

/-! ## Claim C5 -/

/-- Unfolding one trigger of the iterated run. -/
lemma ES_run_cons (cb : ℚ → ℚ → ℚ) (pat : Nat) (st : ESState) (v : Option ℚ)
    (vs : List (Option ℚ)) :
    EarlyStopping_run cb pat st (v :: vs) =
      ((EarlyStopping_run cb pat (EarlyStopping_do cb pat st v).1 vs).1,
       (EarlyStopping_do cb pat st v).2 ::
         (EarlyStopping_run cb pat (EarlyStopping_do cb pat st v).1 vs).2) :=
  rfl

/-- A trigger whose value is selected over the stored best (or meets an unset
best) resets the counter, stores the value and logs the notification. -/
lemma ES_do_improve (cb : ℚ → ℚ → ℚ) (pat : Nat) (c : Nat) (bo : Option ℚ)
    (v : ℚ) (h : ∀ b, bo = some b → cb v b = v ∧ v ≠ b) :
    EarlyStopping_do cb pat ⟨c, bo⟩ (some v) =
      (⟨0, some v⟩, ⟨some 0, true, decide (pat ≤ 0)⟩) := by
  cases bo with
  | none => rfl
  | some b =>
    obtain ⟨hcb, hne⟩ := h b rfl
    simp [EarlyStopping_do, hne, hcb]

/-- A trigger whose value equals the stored best increments the counter. -/
lemma ES_do_no_improve (cb : ℚ → ℚ → ℚ) (pat : Nat) (c : Nat) (v : ℚ) :
    EarlyStopping_do cb pat ⟨c, some v⟩ (some v) =
      (⟨c + 1, some v⟩, ⟨some (c + 1), false, decide (pat ≤ c + 1)⟩) := by
  have himp : (decide (v ≠ v) && decide (cb v v = v)) = false := by simp
  simp [EarlyStopping_do, himp]

/-- Over a sequence in which every value is strictly selected over the
previous one (and the first over the incoming best, if set), every trigger
resets the counter to 0 and the final best is the last value. -/
lemma ES_run_improving (cb : ℚ → ℚ → ℚ) (pat : Nat) :
    ∀ (n : Nat) (f : Nat → ℚ) (c : Nat) (bo : Option ℚ),
      (∀ b, bo = some b → cb (f 0) b = f 0 ∧ f 0 ≠ b) →
      (∀ i, i + 1 < n + 1 → cb (f (i + 1)) (f i) = f (i + 1) ∧ f (i + 1) ≠ f i) →
      EarlyStopping_run cb pat ⟨c, bo⟩
          ((List.range (n + 1)).map (fun i => some (f i))) =
        (⟨0, some (f n)⟩,
         List.replicate (n + 1) ⟨some 0, true, decide (pat ≤ 0)⟩) := by
  intro n
  induction n with
  | zero =>
    intro f c bo h0 _
    have h1 : (List.range (0 + 1)).map (fun i => some (f i)) = [some (f 0)] :=
      rfl
    rw [h1, ES_run_cons, ES_do_improve cb pat c bo (f 0) h0]
    rfl
  | succ m ih =>
    intro f c bo h0 hstep
    rw [List.range_succ_eq_map]
    simp only [List.map_cons, List.map_map]
    rw [ES_run_cons, ES_do_improve cb pat c bo (f 0) h0]
    dsimp only
    have hmap : List.map ((fun i => some (f i)) ∘ Nat.succ)
        (List.range (m + 1)) =
        List.map (fun i => some (f (i + 1))) (List.range (m + 1)) :=
      List.map_congr_left (fun a _ => rfl)
    rw [hmap]
    have ih2 : EarlyStopping_run cb pat ⟨0, some (f 0)⟩
        (List.map (fun i => some (f (i + 1))) (List.range (m + 1))) =
        (⟨0, some (f (m + 1))⟩,
         List.replicate (m + 1) ⟨some 0, true, decide (pat ≤ 0)⟩) :=
      ih (fun i => f (i + 1)) 0 (some (f 0))
        (fun b hb => by
          have hb' := Option.some.inj hb
          subst hb'
          exact hstep 0 (by omega))
        (fun i hi => hstep (i + 1) (by omega))
    rw [ih2]
    rfl

/-- Splitting an iterated run at a list append. -/
lemma ES_run_append (cb : ℚ → ℚ → ℚ) (pat : Nat) :
    ∀ (xs ys : List (Option ℚ)) (st : ESState),
      EarlyStopping_run cb pat st (xs ++ ys) =
        ((EarlyStopping_run cb pat
            (EarlyStopping_run cb pat st xs).1 ys).1,
         (EarlyStopping_run cb pat st xs).2 ++
           (EarlyStopping_run cb pat
             (EarlyStopping_run cb pat st xs).1 ys).2) := by
  intro xs
  induction xs with
  | nil => intro ys st; rfl
  | cons v vs ih =>
    intro ys st
    rw [List.cons_append, ES_run_cons, ES_run_cons]
    dsimp only
    rw [ih ys (EarlyStopping_do cb pat st v).1]
    rw [List.cons_append]

/-- Over a constant sequence starting from a stored best equal to that
constant, every trigger increments the counter, logging it and flagging
termination as soon as the counter reaches the patience threshold. -/
lemma ES_run_constant (cb : ℚ → ℚ → ℚ) (pat : Nat) (c : ℚ) :
    ∀ (n k : Nat),
      EarlyStopping_run cb pat ⟨k, some c⟩ (List.replicate n (some c)) =
        (⟨k + n, some c⟩,
         (List.range n).map
           (fun i => ⟨some (k + 1 + i), false, decide (pat ≤ k + 1 + i)⟩)) := by
  intro n
  induction n with
  | zero => intro k; simp [EarlyStopping_run]
  | succ m ih =>
    intro k
    rw [List.replicate_succ', ES_run_append, ih k]
    dsimp only
    rw [ES_run_cons, ES_do_no_improve cb pat (k + m) c]
    dsimp only
    rw [List.range_succ, List.map_append]
    simp only [List.map_cons, List.map_nil]
    have h3 : k + 1 + m = k + m + 1 := by omega
    have h4 : k + (m + 1) = k + m + 1 := by omega
    rw [h3, h4]
    rfl

/-- C5: fed a strictly improving sequence (each value strictly selected over
the previous by the configured choose_best), every trigger of EarlyStopping
logs counter 0 and the final stored best is the last (running optimal) value;
fed a sequence that is constant after its first value, the first trigger sets
the best and resets the counter, every subsequent trigger i logs counter i,
and the termination request is flagged exactly on the triggers whose counter
has reached the patience threshold — first on the one where counter equals
patience. -/
theorem C5_early_stopping (cb : ℚ → ℚ → ℚ) (pat m : Nat) (f : Nat → ℚ)
    (c : ℚ)
    (himp : ∀ i, i + 1 < m + 1 →
      cb (f (i + 1)) (f i) = f (i + 1) ∧ f (i + 1) ≠ f i) :
    EarlyStopping_run cb pat ⟨0, none⟩
        ((List.range (m + 1)).map (fun i => some (f i))) =
      (⟨0, some (f m)⟩,
       List.replicate (m + 1) ⟨some 0, true, decide (pat ≤ 0)⟩) ∧
    EarlyStopping_run cb pat ⟨0, none⟩ (List.replicate (m + 1) (some c)) =
      (⟨m, some c⟩,
       (List.range (m + 1)).map
         (fun i => ⟨some i, decide (i = 0), decide (pat ≤ i)⟩)) := by
  constructor
  · exact ES_run_improving cb pat m f 0 none
      (fun b hb => Option.noConfusion hb) himp
  · rw [List.replicate_succ, ES_run_cons,
      ES_do_improve cb pat 0 none c (fun b hb => Option.noConfusion hb)]
    dsimp only
    rw [ES_run_constant cb pat c m 0]
    dsimp only
    rw [List.range_succ_eq_map]
    simp only [List.map_cons, List.map_map, Nat.zero_add]
    have hmap : List.map
        (fun i => (⟨some (1 + i), false, decide (pat ≤ 1 + i)⟩ : ESRow))
        (List.range m) =
        List.map
          ((fun i => (⟨some i, decide (i = 0), decide (pat ≤ i)⟩ : ESRow)) ∘
            Nat.succ)
          (List.range m) :=
      List.map_congr_left (fun a _ => by
        show (⟨some (1 + a), false, decide (pat ≤ 1 + a)⟩ : ESRow) =
          ⟨some (a + 1), decide (a + 1 = 0), decide (pat ≤ a + 1)⟩
        have h5 : 1 + a = a + 1 := by omega
        rw [h5]
        simp)
    rw [hmap]
    simp

/-- Witness for C5_early_stopping: choose_best = min, patience 2, the strictly
decreasing sequence 0, -1, -2 (counter stays 0, best ends at -2), and the
constant sequence 5, 5, 5 (counters 0, 1, 2; termination flagged on the third
trigger, where the counter reaches the patience threshold 2). -/
theorem C5_witness :
    EarlyStopping_run (fun a b => min a b) 2 ⟨0, none⟩
        ((List.range (2 + 1)).map (fun i => some (-(i : ℚ)))) =
      (⟨0, some (-((2 : Nat) : ℚ))⟩,
       List.replicate (2 + 1) ⟨some 0, true, decide ((2 : Nat) ≤ 0)⟩) ∧
    EarlyStopping_run (fun a b => min a b) 2 ⟨0, none⟩
        (List.replicate (2 + 1) (some (5 : ℚ))) =
      (⟨2, some 5⟩,
       (List.range (2 + 1)).map
         (fun i => ⟨some i, decide (i = 0), decide ((2 : Nat) ≤ i)⟩)) :=
  C5_early_stopping (fun a b => min a b) 2 2 (fun i => -(i : ℚ)) 5
    (fun i hi => by
      constructor
      · refine min_eq_left ?_
        push_cast
        linarith
      · intro h
        have h6 : ((i : ℚ) + 1) = (i : ℚ) := by
          push_cast at h
          linarith
        linarith)
